import Mathlib

/-!
Verification development for the surplus-sync backend (src/backend/main.py).

The embedding is shallow: Python floats (quantities, coordinates, derived
hour counts) are modelled as rationals, `datetime` timestamps as integers
(seconds), and the SQL table as a list of rows.  Each FastAPI handler of
main.py becomes a pure function from the store (plus a flag modelling
whether the database commit succeeds) to a result, a new store and the
list of WebSocket messages it broadcasts.  The `ConnectionManager` class
is embedded directly, with an abstract predicate standing for whether
`send_json` to a given connection raises.
-/

namespace SurplusSync

/-- Food categories, from `class FoodType` in main.py. -/
inductive FoodType
  | VEG
  | NON_VEG
  | VEGAN
  | MIXED
deriving DecidableEq, Repr

/-- Donation lifecycle states, from `class DonationStatus` in main.py. -/
inductive DonationStatus
  | AVAILABLE
  | ASSIGNED
  | IN_TRANSIT
  | DELIVERED
  | CANCELLED
deriving DecidableEq, Repr

/-- One row of the `donations` table, from `class Donation` in main.py.
The PostGIS `location` column duplicates latitude/longitude and is never
read back by any handler, so it is not carried separately. -/
structure Donation where
  id : Nat
  donor_name : String
  donor_phone : String
  food_type : FoodType
  quantity_kg : ℚ
  description : Option String
  latitude : ℚ
  longitude : ℚ
  address : String
  status : DonationStatus
  created_at : Int
  expires_at : Int
  assigned_volunteer_id : Option Nat
  assigned_at : Option Int
deriving DecidableEq, Repr

/-- The request body of POST /api/donations, from `class DonationCreate`. -/
structure DonationCreate where
  donor_name : String
  donor_phone : String
  food_type : FoodType
  quantity_kg : ℚ
  description : Option String
  latitude : ℚ
  longitude : ℚ
  address : String
  expires_at : Int
deriving DecidableEq, Repr

/-- The pydantic pattern for donor_phone (main.py line 91):
an optional leading plus, a first digit in 1..9, then 9 to 14 digits. -/
def phonePatternOk (s : String) : Bool :=
  let cs := s.toList
  let cs := if cs.head? = some '+' then cs.tail else cs
  match cs with
  | [] => false
  | c :: rest =>
      c.isDigit && c != '0' && rest.all Char.isDigit &&
      decide (9 ≤ rest.length) && decide (rest.length ≤ 14)

/-- The field constraints pydantic checks on `DonationCreate` before the
create handler runs (main.py lines 89-98).  Note: `expires_at` has no
constraint in the source. -/
def donationCreateValid (inp : DonationCreate) : Bool :=
  decide (2 ≤ inp.donor_name.length) && decide (inp.donor_name.length ≤ 100) &&
  phonePatternOk inp.donor_phone &&
  decide (0 < inp.quantity_kg) && decide (inp.quantity_kg ≤ 500) &&
  (match inp.description with
   | none => true
   | some s => decide (s.length ≤ 500)) &&
  decide (-90 ≤ inp.latitude) && decide (inp.latitude ≤ 90) &&
  decide (-180 ≤ inp.longitude) && decide (inp.longitude ≤ 180) &&
  decide (10 ≤ inp.address.length) && decide (inp.address.length ≤ 300)

/-- The WebSocket messages that main.py handlers broadcast.  `NEW_DONATION`
(create handler, lines 265-276) carries the seven listed payload fields;
`STATUS_UPDATE` (status handler, lines 373-379) carries the id and the new
status only. -/
inductive DomainEvent
  | NEW_DONATION (id : Nat) (latitude : ℚ) (longitude : ℚ) (food_type : FoodType)
      (quantity_kg : ℚ) (donor_name : String) (status : DonationStatus)
  | STATUS_UPDATE (id : Nat) (status : DonationStatus)
deriving DecidableEq, Repr

/-- Error outcomes of the handlers.  `ValidationError` is pydantic
rejecting the request body, `NotFound` an HTTP 404, `StoreUnavailable` a
failed database commit.  `IllegalTransition` appears in the error taxonomy
of the spec; it is included so that statements about it can be made, and
no handler in main.py ever produces it. -/
inductive ApiError
  | ValidationError
  | NotFound
  | IllegalTransition
  | StoreUnavailable
deriving DecidableEq, Repr

/-- The row that the create handler writes (main.py lines 246-258): all
fields copied from the request, status forced to AVAILABLE, creation time
from the clock, assignment fields left at their NULL defaults. -/
def mkDonation (inp : DonationCreate) (id : Nat) (now : Int) : Donation :=
  { id := id
    donor_name := inp.donor_name
    donor_phone := inp.donor_phone
    food_type := inp.food_type
    quantity_kg := inp.quantity_kg
    description := inp.description
    latitude := inp.latitude
    longitude := inp.longitude
    address := inp.address
    status := DonationStatus.AVAILABLE
    created_at := now
    expires_at := inp.expires_at
    assigned_volunteer_id := none
    assigned_at := none }

/-- The NEW_DONATION payload built by the create handler (lines 265-276). -/
def createdEvent (d : Donation) : DomainEvent :=
  DomainEvent.NEW_DONATION d.id d.latitude d.longitude d.food_type d.quantity_kg
    d.donor_name d.status

/-- POST /api/donations (`create_donation`, main.py lines 236-278).
Pydantic validates the body before the handler runs; `commitOk` models
whether `db.commit()` succeeds.  On success the row is appended to the
store and afterwards one NEW_DONATION message is broadcast; a raised
commit error propagates before the broadcast line is reached. -/
def create_donation (commitOk : Bool) (inp : DonationCreate) (id : Nat) (now : Int)
    (store : List Donation) :
    Except ApiError (List Donation × List DomainEvent × Donation) :=
  if donationCreateValid inp then
    if commitOk then
      let d := mkDonation inp id now
      Except.ok (store ++ [d], [createdEvent d], d)
    else
      Except.error ApiError.StoreUnavailable
  else
    Except.error ApiError.ValidationError

/-- PATCH /api/donations/\x7bdonation_id\x7d/status (`update_donation_status`,
main.py lines 354-381).  The handler looks the row up by primary key,
404s when absent, and otherwise sets the status to the requested value
with no check against the current status, commits, and then broadcasts
one STATUS_UPDATE message carrying the id and the new status. -/
def update_donation_status (commitOk : Bool) (donation_id : Nat)
    (new_status : DonationStatus) (store : List Donation) :
    Except ApiError (List Donation × List DomainEvent) :=
  match store.find? (fun d => d.id == donation_id) with
  | none => Except.error ApiError.NotFound
  | some _ =>
      if commitOk then
        Except.ok
          (store.map (fun d => if d.id == donation_id then { d with status := new_status } else d),
           [DomainEvent.STATUS_UPDATE donation_id new_status])
      else
        Except.error ApiError.StoreUnavailable

/-- DELETE /api/donations/cleanup (`cleanup_expired_donations`, main.py
lines 291-297).  One bulk delete of every row with `expires_at < now`,
returning the deleted count.  The handler broadcasts nothing. -/
def cleanup_expired_donations (now : Int) (store : List Donation) :
    List Donation × Nat × List DomainEvent :=
  (store.filter (fun d => !(decide (d.expires_at < now))),
   (store.filter (fun d => decide (d.expires_at < now))).length,
   [])

/-- GET /api/donations/available (`get_available_donations`, main.py lines
299-309): rows with status AVAILABLE, ordered by `expires_at` ascending.
The SQL ORDER BY is modelled as a stable sort on the store order. -/
def get_available_donations (store : List Donation) : List Donation :=
  List.insertionSort (fun a b => a.expires_at ≤ b.expires_at)
    (store.filter (fun d => d.status == DonationStatus.AVAILABLE))

/-- The marker record built by GET /api/map/markers (`class MapMarker` and
lines 325-338 of main.py). -/
structure MapMarker where
  id : Nat
  latitude : ℚ
  longitude : ℚ
  food_type : FoodType
  quantity_kg : ℚ
  status : DonationStatus
  donor_name : String
  expires_at : Int
  time_until_expiry_hours : ℚ
deriving DecidableEq, Repr

/-- Python `round(x, 1)` on the computed hour count.  Modelled as
floor(10x + 1/2)/10; Python rounds exact ties on the underlying binary
float to even, and no statement below depends on tie behaviour. -/
def round1 (q : ℚ) : ℚ := ((q * 10 + 1/2).floor : ℚ) / 10

/-- The per-row marker projection inside `get_map_markers` (main.py lines
325-338): `time_diff = (expires_at - now).total_seconds() / 3600`, rounded
to one decimal, with no clamping. -/
def project (d : Donation) (now : Int) : MapMarker :=
  { id := d.id
    latitude := d.latitude
    longitude := d.longitude
    food_type := d.food_type
    quantity_kg := d.quantity_kg
    status := d.status
    donor_name := d.donor_name
    expires_at := d.expires_at
    time_until_expiry_hours := round1 (((d.expires_at : ℚ) - (now : ℚ)) / 3600) }

/-- GET /api/map/markers (`get_map_markers`, main.py lines 312-340): rows
with status AVAILABLE, in store order (the query has no ORDER BY), each
projected to a marker. -/
def get_map_markers (now : Int) (store : List Donation) : List MapMarker :=
  (store.filter (fun d => d.status == DonationStatus.AVAILABLE)).map
    (fun d => project d now)

/-- The WebSocket connection registry (`class ConnectionManager`,
main.py lines 151-176).  Connections are opaque handles. -/
structure ConnectionManager where
  active_connections : List Nat
deriving DecidableEq, Repr

/-- `ConnectionManager.connect`: accept and append (main.py lines 155-158). -/
def ConnectionManager.connect (m : ConnectionManager) (ws : Nat) : ConnectionManager :=
  { active_connections := m.active_connections ++ [ws] }

/-- `ConnectionManager.disconnect` (main.py lines 160-162) calls
`list.remove`, which removes the first occurrence and raises ValueError
when the element is absent; the raise is modelled as `none`. -/
def ConnectionManager.disconnect (m : ConnectionManager) (ws : Nat) :
    Option ConnectionManager :=
  if ws ∈ m.active_connections then
    some { active_connections := m.active_connections.erase ws }
  else
    none

/-- `ConnectionManager.broadcast` (main.py lines 164-176): attempt
`send_json` to every connection in order, catching each failure and
collecting the failed connections; after the loop each failed connection
is removed with `list.remove`.  `sendOk` abstracts whether the send to a
given connection raises.  The second component is the list of connections
whose send succeeded, i.e. that received the message; the caller gets no
error report. -/
def ConnectionManager.broadcast (m : ConnectionManager) (sendOk : Nat → Bool) :
    ConnectionManager × List Nat :=
  let disconnected := m.active_connections.filter (fun c => !(sendOk c))
  ({ active_connections :=
      disconnected.foldl (fun conns c => conns.erase c) m.active_connections },
   m.active_connections.filter sendOk)

/-- States of the store reachable from the empty table through the three
mutating operations of main.py: a successful create, a successful status
update, and an expiry cleanup. -/
inductive Reachable : List Donation → Prop
  | init : Reachable []
  | create {s s' : List Donation} {inp : DonationCreate} {id : Nat} {now : Int}
      {evs : List DomainEvent} {d : Donation} (h : Reachable s)
      (hc : create_donation true inp id now s = Except.ok (s', evs, d)) :
      Reachable s'
  | transition {s s' : List Donation} {id : Nat} {st : DonationStatus}
      {evs : List DomainEvent} (h : Reachable s)
      (hu : update_donation_status true id st s = Except.ok (s', evs)) :
      Reachable s'
  | sweep {s : List Donation} (h : Reachable s) (now : Int) :
      Reachable (cleanup_expired_donations now s).1

end SurplusSync

namespace SurplusSync

/-- A request body satisfying every pydantic constraint of `DonationCreate`,
used for concrete instantiations below.  Its expiry timestamp is 1000. -/
def inpEx : DonationCreate :=
  { donor_name := "Raj Restaurant"
    donor_phone := "+919876543210"
    food_type := FoodType.VEG
    quantity_kg := 15
    description := none
    latitude := 13
    longitude := 80
    address := "123 Marina Beach Road Chennai"
    expires_at := 1000 }

/-- The row written by a create from `inpEx` with id 1 at time 0. -/
def dEx : Donation := mkDonation inpEx 1 0

/-- The same row after reaching the terminal status DELIVERED. -/
def dDel : Donation := { mkDonation inpEx 1 0 with status := DonationStatus.DELIVERED }

/-- An AVAILABLE row with the later expiry, stored first. -/
def dLate : Donation := { mkDonation inpEx 1 0 with expires_at := 200 }

/-- An AVAILABLE row with the sooner expiry, stored second. -/
def dSoon : Donation := { mkDonation inpEx 2 0 with expires_at := 100 }

/-- A request body whose quantity violates the pydantic range. -/
def inpBadQuantity : DonationCreate := { inpEx with quantity_kg := -1 }

/-- A store state holding one donation moved to ASSIGNED by the status
endpoint. -/
def sAssigned : List Donation :=
  [{ mkDonation inpEx 1 0 with status := DonationStatus.ASSIGNED }]

instance : IsTotal Donation (fun a b => a.expires_at ≤ b.expires_at) :=
  ⟨fun a b => le_total a.expires_at b.expires_at⟩

instance : IsTrans Donation (fun a b => a.expires_at ≤ b.expires_at) :=
  ⟨fun _ _ _ hab hbc => le_trans hab hbc⟩

/-- A valid request body with a successful commit appends exactly the row
built by the handler and broadcasts exactly its NEW_DONATION message. -/
theorem create_valid_ok {inp : DonationCreate} (hv : donationCreateValid inp = true)
    (id : Nat) (now : Int) (store : List Donation) :
    create_donation true inp id now store
      = Except.ok (store ++ [mkDonation inp id now],
          [createdEvent (mkDonation inp id now)], mkDonation inp id now) := by
  simp [create_donation, hv]

/-- An invalid request body is rejected before any store interaction. -/
theorem create_invalid {inp : DonationCreate} (hv : donationCreateValid inp = false)
    (commitOk : Bool) (id : Nat) (now : Int) (store : List Donation) :
    create_donation commitOk inp id now store = Except.error ApiError.ValidationError := by
  simp [create_donation, hv]

/-- A failed commit on create propagates before the broadcast line. -/
theorem create_commit_fails {inp : DonationCreate} (hv : donationCreateValid inp = true)
    (id : Nat) (now : Int) (store : List Donation) :
    create_donation false inp id now store = Except.error ApiError.StoreUnavailable := by
  simp [create_donation, hv]

/-- Inversion: any successful create produced the handler's row, the
appended store and the single NEW_DONATION message. -/
theorem create_ok_inv {commitOk : Bool} {inp : DonationCreate} {id : Nat} {now : Int}
    {store s' : List Donation} {evs : List DomainEvent} {d : Donation}
    (h : create_donation commitOk inp id now store = Except.ok (s', evs, d)) :
    s' = store ++ [mkDonation inp id now] ∧ evs = [createdEvent (mkDonation inp id now)]
      ∧ d = mkDonation inp id now := by
  unfold create_donation at h
  split at h
  · split at h
    · simp only [Except.ok.injEq, Prod.mk.injEq] at h
      exact ⟨h.1.symm, h.2.1.symm, h.2.2.symm⟩
    · cases h
  · cases h

/-- A status update on a present id with a successful commit rewrites that
row's status and broadcasts exactly one STATUS_UPDATE message. -/
theorem update_found_ok {store : List Donation} {id : Nat} {d0 : Donation}
    (hf : store.find? (fun d => d.id == id) = some d0) (st : DonationStatus) :
    update_donation_status true id st store
      = Except.ok (store.map (fun d => if d.id == id then { d with status := st } else d),
          [DomainEvent.STATUS_UPDATE id st]) := by
  simp [update_donation_status, hf]

/-- A status update on an absent id is a 404 and touches nothing. -/
theorem update_notFound {store : List Donation} {id : Nat}
    (hf : store.find? (fun d => d.id == id) = none) (commitOk : Bool)
    (st : DonationStatus) :
    update_donation_status commitOk id st store = Except.error ApiError.NotFound := by
  simp [update_donation_status, hf]

/-- A failed commit on a status update propagates before the broadcast line. -/
theorem update_commit_fails {store : List Donation} {id : Nat} {d0 : Donation}
    (hf : store.find? (fun d => d.id == id) = some d0) (st : DonationStatus) :
    update_donation_status false id st store = Except.error ApiError.StoreUnavailable := by
  simp [update_donation_status, hf]

/-- Inversion: any successful status update rewrote exactly the requested
row's status and broadcast exactly one STATUS_UPDATE message. -/
theorem update_ok_inv {commitOk : Bool} {id : Nat} {st : DonationStatus}
    {store s' : List Donation} {evs : List DomainEvent}
    (h : update_donation_status commitOk id st store = Except.ok (s', evs)) :
    s' = store.map (fun d => if d.id == id then { d with status := st } else d)
      ∧ evs = [DomainEvent.STATUS_UPDATE id st] := by
  unfold update_donation_status at h
  split at h
  · cases h
  · split at h
    · simp only [Except.ok.injEq, Prod.mk.injEq] at h
      exact ⟨h.1.symm, h.2.symm⟩
    · cases h

/-- Folding list erasure over elements absent from the erased prefix keeps
the head in place. -/
theorem foldl_erase_cons_of_not_mem {a : Nat} (l rem : List Nat) (ha : a ∉ rem) :
    rem.foldl (fun conns c => conns.erase c) (a :: l)
      = a :: rem.foldl (fun conns c => conns.erase c) l := by
  induction rem generalizing l with
  | nil => rfl
  | cons c rem ih =>
      have hac : a ≠ c := fun h => ha (h ▸ List.mem_cons_self c rem)
      have h1 : (a :: l).erase c = a :: l.erase c :=
        List.erase_cons_tail (by simpa using hac)
      simp only [List.foldl_cons, h1]
      exact ih (l.erase c) (fun h => ha (List.mem_cons_of_mem c h))

/-- On a duplicate-free list, erasing every element failing `p` leaves
exactly the elements satisfying `p`, in order. -/
theorem foldl_erase_filter {p : Nat → Bool} (l : List Nat) (hnd : l.Nodup) :
    (l.filter (fun c => !(p c))).foldl (fun conns c => conns.erase c) l
      = l.filter p := by
  induction l with
  | nil => rfl
  | cons a l ih =>
      have ha : a ∉ l := (List.nodup_cons.mp hnd).1
      have hl : l.Nodup := (List.nodup_cons.mp hnd).2
      by_cases hp : p a = true
      · have h1 : (a :: l).filter (fun c => !(p c)) = l.filter (fun c => !(p c)) := by
          simp [List.filter_cons, hp]
        have h2 : a ∉ l.filter (fun c => !(p c)) :=
          fun hmem => ha (List.mem_of_mem_filter hmem)
        rw [h1, foldl_erase_cons_of_not_mem l _ h2, ih hl]
        simp [List.filter_cons, hp]
      · have hp' : p a = false := by simpa using hp
        have h1 : (a :: l).filter (fun c => !(p c))
            = a :: l.filter (fun c => !(p c)) := by
          simp [List.filter_cons, hp']
        rw [h1]
        simp only [List.foldl_cons, List.erase_cons_head]
        rw [ih hl]
        simp [List.filter_cons, hp']

/-- The elements kept by a predicate and those dropped by it partition the
list's length. -/
theorem length_filter_add_not {p : Nat → Bool} (l : List Nat) :
    (l.filter p).length + (l.filter (fun c => !(p c))).length = l.length := by
  induction l with
  | nil => rfl
  | cons a l ih =>
      by_cases hp : p a = true
      · simp only [List.filter_cons, hp, Bool.not_true, if_true, if_false,
          List.length_cons, Bool.false_eq_true]
        omega
      · have hp' : p a = false := by simpa using hp
        simp only [List.filter_cons, hp', Bool.not_false, if_true, if_false,
          List.length_cons, Bool.false_eq_true]
        omega

end SurplusSync

namespace SurplusSync

/-- Claim C1 (amended): the status-update operation enforces no transition
graph at all: for every store and every donation id present in it, every
requested status — including self-transitions and transitions out of the
terminal states DELIVERED and CANCELLED — is accepted; the operation
rewrites exactly that donation's status to the requested value, leaves
every other field unchanged, and never fails with any error, in particular
never with IllegalTransition. -/
theorem C1_setStatus_unrestricted (store : List Donation) (id : Nat)
    (st : DonationStatus) (h : ∃ d ∈ store, d.id = id) :
    update_donation_status true id st store
      = Except.ok
          (store.map (fun d => if d.id == id then { d with status := st } else d),
           [DomainEvent.STATUS_UPDATE id st])
      ∧ ∀ e : ApiError, update_donation_status true id st store ≠ Except.error e := by
  obtain ⟨d, hmem, hid⟩ := h
  have hsome : (store.find? (fun d => d.id == id)).isSome = true :=
    List.find?_isSome.mpr ⟨d, hmem, by simp [hid]⟩
  obtain ⟨d0, hf⟩ := Option.isSome_iff_exists.mp hsome
  have heq := update_found_ok hf st
  refine ⟨heq, fun e he => ?_⟩
  rw [heq] at he
  cases he

/-- Claim C1 witness: a DELIVERED donation moved back to AVAILABLE. -/
theorem C1_setStatus_unrestricted_witness :
    update_donation_status true 1 DonationStatus.AVAILABLE [dDel]
      = Except.ok ([{ dDel with status := DonationStatus.AVAILABLE }],
          [DomainEvent.STATUS_UPDATE 1 DonationStatus.AVAILABLE])
      ∧ ∀ e : ApiError,
          update_donation_status true 1 DonationStatus.AVAILABLE [dDel]
            ≠ Except.error e := by
  have h := C1_setStatus_unrestricted [dDel] 1 DonationStatus.AVAILABLE
    ⟨dDel, List.mem_singleton.mpr rfl, rfl⟩
  exact ⟨h.1.trans (by rfl), h.2⟩

/-- Claim C1 counterexample: a transition out of the terminal state
DELIVERED, forbidden by the §4.1 graph, does not fail with
IllegalTransition; it succeeds and changes the stored status. -/
theorem C1_counterexample :
    update_donation_status true 1 DonationStatus.AVAILABLE [dDel]
        ≠ Except.error ApiError.IllegalTransition
      ∧ update_donation_status true 1 DonationStatus.AVAILABLE [dDel]
          = Except.ok ([{ dDel with status := DonationStatus.AVAILABLE }],
              [DomainEvent.STATUS_UPDATE 1 DonationStatus.AVAILABLE])
      ∧ dDel.status = DonationStatus.DELIVERED := by
  have heq : update_donation_status true 1 DonationStatus.AVAILABLE [dDel]
      = Except.ok ([{ dDel with status := DonationStatus.AVAILABLE }],
          [DomainEvent.STATUS_UPDATE 1 DonationStatus.AVAILABLE]) := rfl
  refine ⟨fun he => ?_, heq, rfl⟩
  rw [heq] at he
  cases he

/-- Claim C2: broadcasting over a duplicate-free live set attempts
delivery to every observer (each observer lands in exactly one of the
delivered and pruned groups), reports no error to the caller (the
operation is total), removes exactly the observers whose send failed
during the same pass, and afterwards exactly the N − k observers whose
send succeeded remain registered, each of which received the message. -/
theorem C2_broadcast_failure_containment (m : ConnectionManager)
    (sendOk : Nat → Bool) (h : m.active_connections.Nodup) :
    (m.broadcast sendOk).1.active_connections = m.active_connections.filter sendOk
      ∧ (m.broadcast sendOk).2 = m.active_connections.filter sendOk
      ∧ (m.broadcast sendOk).1.active_connections.length
          = m.active_connections.length
            - (m.active_connections.filter (fun c => !(sendOk c))).length
      ∧ (∀ c ∈ m.active_connections, sendOk c = true →
          c ∈ (m.broadcast sendOk).2) := by
  have h1 : (m.broadcast sendOk).1.active_connections
      = m.active_connections.filter sendOk := foldl_erase_filter _ h
  refine ⟨h1, rfl, ?_, ?_⟩
  · rw [h1]
    have h2 := length_filter_add_not (p := sendOk) m.active_connections
    omega
  · intro c hc hok
    show c ∈ m.active_connections.filter sendOk
    exact List.mem_filter.mpr ⟨hc, hok⟩

/-- Claim C2 witness: three observers of which the middle one fails;
afterwards exactly the two others remain and both received the message. -/
theorem C2_broadcast_failure_containment_witness :
    (ConnectionManager.broadcast ⟨[1, 2, 3]⟩ (fun c => c != 2)).1.active_connections
        = [1, 3]
      ∧ (ConnectionManager.broadcast ⟨[1, 2, 3]⟩ (fun c => c != 2)).2 = [1, 3]
      ∧ (ConnectionManager.broadcast ⟨[1, 2, 3]⟩ (fun c => c != 2)).1.active_connections.length
          = 3 - 1 := by
  have h := C2_broadcast_failure_containment ⟨[1, 2, 3]⟩ (fun c => c != 2) (by decide)
  exact ⟨h.1.trans (by rfl), h.2.1.trans (by rfl), by rw [h.1]; rfl⟩

/-- Claim C3 (amended): the cleanup endpoint deletes exactly the donations
whose expiry timestamp is strictly before `now`, regardless of their
status, and returns the count of deleted rows; it emits no event at all —
in particular not one Removed event per deleted donation. -/
theorem C3_sweep_deletes_expired (now : Int) (store : List Donation) :
    (∀ d, d ∈ (cleanup_expired_donations now store).1 ↔
        d ∈ store ∧ ¬(d.expires_at < now))
      ∧ (cleanup_expired_donations now store).2.1
          = store.countP (fun d => decide (d.expires_at < now))
      ∧ (cleanup_expired_donations now store).2.2 = [] := by
  refine ⟨?_, (List.countP_eq_length_filter _ _).symm, rfl⟩
  intro d
  constructor
  · intro hmem
    have h1 := List.mem_filter.mp hmem
    exact ⟨h1.1, by simpa using h1.2⟩
  · intro hmem
    exact List.mem_filter.mpr ⟨hmem.1, by simpa using hmem.2⟩

/-- Claim C3 counterexample: sweeping at time 2000 a store holding one
donation expired at 1000 deletes it and returns count 1, yet broadcasts
zero events rather than one Removed event per deleted donation. -/
theorem C3_counterexample :
    (cleanup_expired_donations 2000 [dEx]).2.1 = 1
      ∧ (cleanup_expired_donations 2000 [dEx]).2.2.length = 0
      ∧ (cleanup_expired_donations 2000 [dEx]).2.2.length
          ≠ (cleanup_expired_donations 2000 [dEx]).2.1 := by
  refine ⟨rfl, rfl, by decide⟩

/-- Claim C10: `disconnect` on a handle that is not in the live set raises
(the ValueError of `list.remove`, modelled as `none`) instead of being a
no-op; consequently, once a broadcast pass has pruned a connection whose
send failed, a later disconnect of that same connection raises. -/
theorem C10_disconnect_raises_when_absent (m : ConnectionManager) (ws : Nat)
    (sendOk : Nat → Bool) (h1 : m.active_connections.Nodup)
    (h2 : sendOk ws = false) :
    (∀ (m' : ConnectionManager) (w : Nat), w ∉ m'.active_connections →
        m'.disconnect w = none)
      ∧ (m.broadcast sendOk).1.disconnect ws = none := by
  have habs : ∀ (m' : ConnectionManager) (w : Nat), w ∉ m'.active_connections →
      m'.disconnect w = none := by
    intro m' w hw
    simp [ConnectionManager.disconnect, hw]
  refine ⟨habs, habs _ _ ?_⟩
  have h3 : (m.broadcast sendOk).1.active_connections
      = m.active_connections.filter sendOk := foldl_erase_filter _ h1
  rw [h3]
  intro hmem
  have h4 := (List.mem_filter.mp hmem).2
  rw [h2] at h4
  cases h4

/-- Claim C10 witness: connection 2 fails during a broadcast over the live
set [1, 2]; its own later disconnect then raises, as does disconnecting a
handle that was never registered. -/
theorem C10_disconnect_raises_when_absent_witness :
    ((ConnectionManager.broadcast ⟨[1, 2]⟩ (fun c => c != 2)).1.disconnect 2 = none)
      ∧ (ConnectionManager.disconnect ⟨[1]⟩ 2 = none) := by
  have h := C10_disconnect_raises_when_absent ⟨[1, 2]⟩ 2 (fun c => c != 2)
    (by decide) (by decide)
  exact ⟨h.2, h.1 ⟨[1]⟩ 2 (by decide)⟩

end SurplusSync

namespace SurplusSync

/-- Claim C4 (amended): `get_available_donations` returns exactly the
donations with status AVAILABLE, sorted by ascending expiry timestamp;
`get_map_markers` also returns only AVAILABLE donations (projected to
markers), but in store order — its query has no ORDER BY — so its output
is not in general sorted by expiry. -/
theorem C4_listings_available_and_order (store : List Donation) (now : Int) :
    List.Pairwise (fun a b => a.expires_at ≤ b.expires_at)
        (get_available_donations store)
      ∧ (∀ d, d ∈ get_available_donations store ↔
          d ∈ store ∧ d.status = DonationStatus.AVAILABLE)
      ∧ (∀ mv ∈ get_map_markers now store, mv.status = DonationStatus.AVAILABLE)
      ∧ get_map_markers now store
          = (store.filter (fun d => d.status == DonationStatus.AVAILABLE)).map
              (fun d => project d now) := by
  refine ⟨?_, ?_, ?_, rfl⟩
  · exact List.sorted_insertionSort _ _
  · intro d
    rw [show get_available_donations store
        = List.insertionSort (fun a b => a.expires_at ≤ b.expires_at)
            (store.filter (fun d => d.status == DonationStatus.AVAILABLE)) from rfl,
      (List.perm_insertionSort _ _).mem_iff, List.mem_filter]
    simp
  · intro mv hmv
    obtain ⟨d, hd, hproj⟩ := List.mem_map.mp hmv
    have hst : d.status = DonationStatus.AVAILABLE := by
      simpa using (List.mem_filter.mp hd).2
    rw [← hproj]
    exact hst

/-- Claim C4 counterexample: two AVAILABLE donations stored with the later
expiry first; the marker endpoint returns them in store order, which is
not ascending by expiry. -/
theorem C4_counterexample :
    dLate.status = DonationStatus.AVAILABLE
      ∧ dSoon.status = DonationStatus.AVAILABLE
      ∧ (get_map_markers 0 [dLate, dSoon]).map (fun mv => mv.expires_at) = [200, 100]
      ∧ ¬ List.Pairwise (fun a b => a.expires_at ≤ b.expires_at)
          (get_map_markers 0 [dLate, dSoon]) := by
  exact ⟨rfl, rfl, rfl, by decide⟩

/-- Claim C5 (amended): the marker's remaining-life field is
round((expiry − now) / 3600, 1) with no clamping: it is nonnegative
whenever the donation is not yet expired, but once expiry lies more than
180 seconds in the past it is strictly negative — a negative duration
does surface. -/
theorem C5_remaining_life_not_clamped (d : Donation) (now : Int) :
    (now ≤ d.expires_at → 0 ≤ (project d now).time_until_expiry_hours)
      ∧ (d.expires_at + 180 < now → (project d now).time_until_expiry_hours < 0) := by
  constructor
  · intro h
    show (0:ℚ) ≤ round1 (((d.expires_at : ℚ) - (now : ℚ)) / 3600)
    unfold round1
    apply div_nonneg _ (by norm_num)
    have hc : (now : ℚ) ≤ (d.expires_at : ℚ) := by exact_mod_cast h
    have hq : (0:ℚ) ≤ ((d.expires_at : ℚ) - (now : ℚ)) / 3600 :=
      div_nonneg (by linarith) (by norm_num)
    have hz : (0:ℤ) ≤ (((d.expires_at : ℚ) - (now : ℚ)) / 3600 * 10 + 1/2).floor :=
      Rat.le_floor.mpr (by push_cast; linarith)
    exact_mod_cast hz
  · intro h
    show round1 (((d.expires_at : ℚ) - (now : ℚ)) / 3600) < 0
    unfold round1
    have hc : (d.expires_at : ℚ) + 180 < (now : ℚ) := by exact_mod_cast h
    have hq : ((d.expires_at : ℚ) - (now : ℚ)) / 3600 < -1/20 := by
      rw [div_lt_iff₀ (by norm_num)]
      linarith
    have hq10 : ((d.expires_at : ℚ) - (now : ℚ)) / 3600 * 10 + 1/2 < 0 := by
      have h10 := mul_lt_mul_of_pos_right hq (show (0:ℚ) < 10 by norm_num)
      linarith
    have hfl : (((d.expires_at : ℚ) - (now : ℚ)) / 3600 * 10 + 1/2).floor ≤ -1 := by
      by_contra hcon
      push_neg at hcon
      have h0 : (0:ℤ) ≤ (((d.expires_at : ℚ) - (now : ℚ)) / 3600 * 10 + 1/2).floor := by
        omega
      have h1 := Rat.le_floor.mp h0
      push_cast at h1
      linarith
    have hflq : ((((d.expires_at : ℚ) - (now : ℚ)) / 3600 * 10 + 1/2).floor : ℚ) ≤ -1 := by
      exact_mod_cast hfl
    linarith

/-- Claim C5 witness: the donation expiring at 1000 has nonnegative
remaining life at time 500 and strictly negative remaining life at time
7200 (an expired-but-unswept donation surfaces a negative duration). -/
theorem C5_remaining_life_not_clamped_witness :
    0 ≤ (project dEx 500).time_until_expiry_hours
      ∧ (project dEx 7200).time_until_expiry_hours < 0 :=
  ⟨(C5_remaining_life_not_clamped dEx 500).1 (by decide),
   (C5_remaining_life_not_clamped dEx 7200).2 (by decide)⟩

/-- Claim C6: for creates and for accepted status transitions, the store
write and the event emission form one logical unit: a failed commit makes
the operation return an error carrying no event (the broadcast line is
never reached, so no event precedes the write), while a successful commit
returns the updated store together with exactly its one event. -/
theorem C6_write_and_event_one_unit (inp : DonationCreate) (id : Nat) (now : Int)
    (store : List Donation) (st : DonationStatus) (d0 : Donation)
    (hv : donationCreateValid inp = true)
    (hf : store.find? (fun d => d.id == id) = some d0) :
    create_donation false inp id now store = Except.error ApiError.StoreUnavailable
      ∧ create_donation true inp id now store
          = Except.ok (store ++ [mkDonation inp id now],
              [createdEvent (mkDonation inp id now)], mkDonation inp id now)
      ∧ update_donation_status false id st store = Except.error ApiError.StoreUnavailable
      ∧ update_donation_status true id st store
          = Except.ok
              (store.map (fun d => if d.id == id then { d with status := st } else d),
               [DomainEvent.STATUS_UPDATE id st]) :=
  ⟨create_commit_fails hv id now store, create_valid_ok hv id now store,
   update_commit_fails hf st, update_found_ok hf st⟩

/-- Claim C6 witness: instantiation over the store holding the donation
with id 1, for a create from the valid body and a transition to ASSIGNED. -/
theorem C6_write_and_event_one_unit_witness :
    create_donation false inpEx 1 0 [dEx] = Except.error ApiError.StoreUnavailable
      ∧ create_donation true inpEx 1 0 [dEx]
          = Except.ok ([dEx] ++ [mkDonation inpEx 1 0],
              [createdEvent (mkDonation inpEx 1 0)], mkDonation inpEx 1 0)
      ∧ update_donation_status false 1 DonationStatus.ASSIGNED [dEx]
          = Except.error ApiError.StoreUnavailable
      ∧ update_donation_status true 1 DonationStatus.ASSIGNED [dEx]
          = Except.ok
              ([dEx].map (fun d => if d.id == 1 then { d with status := DonationStatus.ASSIGNED } else d),
               [DomainEvent.STATUS_UPDATE 1 DonationStatus.ASSIGNED]) :=
  C6_write_and_event_one_unit inpEx 1 0 [dEx] DonationStatus.ASSIGNED dEx
    (by decide) rfl

/-- Claim C7 (amended): every event broadcast by an accepted status
transition is exactly one STATUS_UPDATE carrying the donation id and the
new status; the status held before the transition is not part of the
payload. -/
theorem C7_status_event_payload {commitOk : Bool} {id : Nat} {st : DonationStatus}
    {store s' : List Donation} {evs : List DomainEvent}
    (h : update_donation_status commitOk id st store = Except.ok (s', evs)) :
    evs = [DomainEvent.STATUS_UPDATE id st] :=
  (update_ok_inv h).2

/-- Claim C7 witness: the event list broadcast by the accepted transition
of donation 1 to ASSIGNED is exactly the one STATUS_UPDATE payload. -/
theorem C7_status_event_payload_witness :
    [DomainEvent.STATUS_UPDATE 1 DonationStatus.ASSIGNED]
      = [DomainEvent.STATUS_UPDATE 1 DonationStatus.ASSIGNED] :=
  C7_status_event_payload
    (rfl : update_donation_status true 1 DonationStatus.ASSIGNED [dEx]
      = Except.ok ([{ dEx with status := DonationStatus.ASSIGNED }],
          [DomainEvent.STATUS_UPDATE 1 DonationStatus.ASSIGNED]))

/-- Claim C7 counterexample: accepted transitions to CANCELLED from two
different prior statuses (AVAILABLE and DELIVERED) broadcast identical
event lists, so the emitted event does not carry the prior status. -/
theorem C7_counterexample :
    update_donation_status true 1 DonationStatus.CANCELLED [dEx]
        = Except.ok ([{ dEx with status := DonationStatus.CANCELLED }],
            [DomainEvent.STATUS_UPDATE 1 DonationStatus.CANCELLED])
      ∧ update_donation_status true 1 DonationStatus.CANCELLED [dDel]
          = Except.ok ([{ dDel with status := DonationStatus.CANCELLED }],
              [DomainEvent.STATUS_UPDATE 1 DonationStatus.CANCELLED])
      ∧ dEx.status ≠ dDel.status :=
  ⟨rfl, rfl, by decide⟩

/-- Numeric range facts guaranteed by a passing validation. -/
theorem donationCreateValid_ranges {inp : DonationCreate}
    (hv : donationCreateValid inp = true) :
    0 < inp.quantity_kg ∧ inp.quantity_kg ≤ 500
      ∧ -90 ≤ inp.latitude ∧ inp.latitude ≤ 90
      ∧ -180 ≤ inp.longitude ∧ inp.longitude ≤ 180 := by
  unfold donationCreateValid at hv
  simp only [Bool.and_eq_true, decide_eq_true_eq] at hv
  exact ⟨by tauto, by tauto, by tauto, by tauto, by tauto, by tauto⟩

/-- Claim C8 (amended): a request body out of range — non-positive or
over-cap quantity, latitude outside [-90, 90] or longitude outside
[-180, 180] — is rejected with ValidationError before any store write.
The expiry timestamp, however, is not constrained against the creation
instant, so an entity whose expiry is not strictly after its creation
timestamp can be written. -/
theorem C8_validation_rejects_out_of_range (inp : DonationCreate)
    (commitOk : Bool) (id : Nat) (now : Int) (store : List Donation)
    (h : inp.quantity_kg ≤ 0 ∨ 500 < inp.quantity_kg
        ∨ inp.latitude < -90 ∨ 90 < inp.latitude
        ∨ inp.longitude < -180 ∨ 180 < inp.longitude) :
    create_donation commitOk inp id now store
      = Except.error ApiError.ValidationError := by
  apply create_invalid _ commitOk id now store
  cases hb : donationCreateValid inp
  · rfl
  · exfalso
    have hr := donationCreateValid_ranges hb
    rcases h with h | h | h | h | h | h <;>
      linarith [hr.1, hr.2.1, hr.2.2.1, hr.2.2.2.1, hr.2.2.2.2.1, hr.2.2.2.2.2]

/-- Claim C8 witness: a body with quantity −1 is rejected with
ValidationError and nothing is written. -/
theorem C8_validation_rejects_out_of_range_witness :
    create_donation true inpBadQuantity 1 0 []
      = Except.error ApiError.ValidationError :=
  C8_validation_rejects_out_of_range inpBadQuantity true 1 0 []
    (Or.inl (by show (-1:ℚ) ≤ 0; norm_num))

/-- Claim C8 counterexample: a body passing every pydantic check but whose
expiry (1000) is not strictly after the creation instant (2000) is
accepted, written to the store, and its NEW_DONATION event broadcast — no
ValidationError occurs, and an entity with expiry before creation is
written. -/
theorem C8_counterexample :
    donationCreateValid inpEx = true
      ∧ create_donation true inpEx 1 2000 []
          = Except.ok ([mkDonation inpEx 1 2000],
              [createdEvent (mkDonation inpEx 1 2000)], mkDonation inpEx 1 2000)
      ∧ (mkDonation inpEx 1 2000).expires_at < (mkDonation inpEx 1 2000).created_at :=
  ⟨by decide, rfl, by decide⟩

/-- Claim C9 (amended): no operation of main.py ever sets the
assigned-volunteer field: in every store state reachable through create,
status update and expiry cleanup, every donation's assigned-volunteer is
unset.  Hence "AVAILABLE implies assigned-volunteer unset" holds, while
"ASSIGNED implies assigned-volunteer set" fails. -/
theorem C9_volunteer_never_set {s : List Donation} (h : Reachable s) :
    ∀ d ∈ s, d.assigned_volunteer_id = none := by
  induction h with
  | init =>
      intro d hd
      cases hd
  | create h hc ih =>
      obtain ⟨hs, -, -⟩ := create_ok_inv hc
      subst hs
      intro d hd
      rcases List.mem_append.mp hd with hd | hd
      · exact ih d hd
      · rcases List.mem_singleton.mp hd with rfl
        rfl
  | transition h hu ih =>
      obtain ⟨hs, -⟩ := update_ok_inv hu
      subst hs
      intro d hd
      obtain ⟨d0, hd0, hmap⟩ := List.mem_map.mp hd
      split at hmap
      · rw [← hmap]
        exact ih d0 hd0
      · rw [← hmap]
        exact ih d0 hd0
  | sweep h now ih =>
      intro d hd
      have hd' : d ∈ List.filter (fun x => !(decide (x.expires_at < now))) _ := hd
      exact ih d (List.mem_of_mem_filter hd')

/-- Claim C9 witness: the store reached by one successful create; its one
donation has the assigned-volunteer field unset. -/
theorem C9_volunteer_never_set_witness :
    (mkDonation inpEx 1 0).assigned_volunteer_id = none :=
  C9_volunteer_never_set
    (Reachable.create Reachable.init (create_valid_ok (by decide) 1 0 []))
    (mkDonation inpEx 1 0) (List.mem_singleton.mpr rfl)

/-- Claim C9 counterexample: from the empty store, a create followed by an
accepted transition to ASSIGNED reaches a state whose donation has status
ASSIGNED with the assigned-volunteer field unset, violating the claimed
invariant. -/
theorem C9_counterexample :
    Reachable sAssigned
      ∧ ∀ d ∈ sAssigned,
          d.status = DonationStatus.ASSIGNED ∧ d.assigned_volunteer_id = none := by
  have hu : update_donation_status true 1 DonationStatus.ASSIGNED
      ([] ++ [mkDonation inpEx 1 0])
      = Except.ok (sAssigned, [DomainEvent.STATUS_UPDATE 1 DonationStatus.ASSIGNED]) := rfl
  refine ⟨Reachable.transition
    (Reachable.create Reachable.init (create_valid_ok (by decide) 1 0 [])) hu, ?_⟩
  intro d hd
  rcases List.mem_singleton.mp hd with rfl
  exact ⟨rfl, rfl⟩

end SurplusSync

namespace SurplusSync

/-- Claim C5 counterexample: the donation expiring at time 1000, projected
at time 7200, carries remaining-life −1.7 hours — a negative duration
surfaces, so the projection is not clamped to zero. -/
theorem C5_counterexample :
    (project dEx 7200).time_until_expiry_hours = -17/10
      ∧ ¬ (0 ≤ (project dEx 7200).time_until_expiry_hours) := by
  have h : (project dEx 7200).time_until_expiry_hours = -17/10 := by
    norm_num [project, round1, dEx, mkDonation, inpEx, Rat.floor]
  refine ⟨h, ?_⟩
  rw [h]
  norm_num

end SurplusSync
